import Mathlib

/-!
# Verification of the applicant form-discovery / form-fill pipeline

A shallow embedding, in Lean 4, of the core pipeline of the `applicant`
repository: the Form Schema Extractor (`src/webbot/forms/extractor.py`),
the Answer Generator (`src/webbot/forms/answerer.py`), the Fill-Plan
Executor (`src/webbot/forms/executor.py`), and the Apply-URL Resolver
(`src/webbot/agents/find_apply_page_gpt5.py` and
`find_apply_page_gpt5beta.py`).

External effects (the live browser page, DOM queries, LLM completions)
are modelled as explicit environment records; each Python function
becomes a pure Lean function of those environments.  Python `dict`s
produced by `json.loads` are modelled by the `Json` inductive below, and
`json.loads` itself by the fueled parser `jsonLoads`, covering the JSON
grammar (without Python's `NaN`/`Infinity` extensions, which never occur
in this development).
-/

namespace Applicant

/-- A JSON value, as produced by Python's `json.loads`.  Python keeps
integers (`1`) and floats (`1.0`) distinct, hence two numeric
constructors. -/
inductive Json where
  | null
  | bool (b : Bool)
  | int (n : Int)
  | float (q : ℚ)
  | str (s : String)
  | arr (elems : List Json)
  | obj (members : List (String × Json))

/-- Python truthiness (`bool(x)`) of a JSON value: `None`, `False`, `0`,
`""`, `[]` and `{}` are falsy, everything else truthy. -/
def pyTruthy : Json → Bool
  | .null => false
  | .bool b => b
  | .int n => n != 0
  | .float q => q != 0
  | .str s => s != ""
  | .arr l => !l.isEmpty
  | .obj l => !l.isEmpty

/-- Python `repr()` of a string (single quotes; exact for quote-free
strings, the only ones this development reprs). -/
def pyQuote (s : String) : String :=
  String.singleton (Char.ofNat 39) ++ s ++ String.singleton (Char.ofNat 39)

mutual

/-- Python `repr()` of a JSON value.  Exact for the scalar values and
quote-free strings used in this development. -/
def pyRepr : Json → String
  | .null => "None"
  | .bool true => "True"
  | .bool false => "False"
  | .int n => toString n
  | .float q => toString q
  | .str s => pyQuote s
  | .arr l => "[" ++ pyReprElems l ++ "]"
  | .obj l => "\x7b" ++ pyReprMembers l ++ "\x7d"

def pyReprElems : List Json → String
  | [] => ""
  | [x] => pyRepr x
  | x :: y :: xs => pyRepr x ++ ", " ++ pyReprElems (y :: xs)

def pyReprMembers : List (String × Json) → String
  | [] => ""
  | [m] => pyQuote m.1 ++ ": " ++ pyRepr m.2
  | m :: y :: xs => pyQuote m.1 ++ ": " ++ pyRepr m.2 ++ ", " ++ pyReprMembers (y :: xs)

end

/-- Python `str()` of a JSON value: identity on strings, `True`/`False`/
`None` for the constants, decimal digits for ints, `repr` for
containers. -/
def pyStr : Json → String
  | .str s => s
  | j => pyRepr j

/-- Lookup in a Python dict built from a JSON object (duplicate keys:
last occurrence wins, as in `json.loads`). -/
def objGet (members : List (String × Json)) (k : String) : Option Json :=
  members.foldl (fun acc m => if m.1 = k then some m.2 else acc) none

/-- Python `k in d` for a dict built from a JSON object. -/
def objHasKey (members : List (String × Json)) (k : String) : Bool :=
  (objGet members k).isSome

/-- Python `d.get(k, default)` on a JSON object's members. -/
def objGetD (members : List (String × Json)) (k : String) (d : Json) : Json :=
  (objGet members k).getD d

/-- JSON whitespace. -/
def isJsonWs (c : Char) : Bool :=
  c = ' ' || c = '\t' || c = '\n' || c = '\r'

def skipWs (l : List Char) : List Char :=
  l.dropWhile isJsonWs

def hexVal? (c : Char) : Option Nat :=
  if '0' ≤ c ∧ c ≤ '9' then some (c.toNat - '0'.toNat)
  else if 'a' ≤ c ∧ c ≤ 'f' then some (c.toNat - 'a'.toNat + 10)
  else if 'A' ≤ c ∧ c ≤ 'F' then some (c.toNat - 'A'.toNat + 10)
  else none

/-- Parse the body of a JSON string literal (after the opening quote),
returning the decoded characters and the remaining input. -/
def parseStringBody (fuel : Nat) (l : List Char) : Option (List Char × List Char) :=
  match fuel, l with
  | 0, _ => none
  | _, [] => none
  | fuel + 1, c :: rest =>
    if c = Char.ofNat 34 then
      some ([], rest)
    else if c = Char.ofNat 92 then
      match rest with
      | [] => none
      | e :: rest2 =>
        let esc : Option (Char × List Char) :=
          if e = Char.ofNat 34 then some (Char.ofNat 34, rest2)
          else if e = Char.ofNat 92 then some (Char.ofNat 92, rest2)
          else if e = '/' then some ('/', rest2)
          else if e = 'n' then some ('\n', rest2)
          else if e = 't' then some ('\t', rest2)
          else if e = 'r' then some ('\r', rest2)
          else if e = 'b' then some (Char.ofNat 8, rest2)
          else if e = 'f' then some (Char.ofNat 12, rest2)
          else if e = 'u' then
            match rest2 with
            | h1 :: h2 :: h3 :: h4 :: rest3 =>
              match hexVal? h1, hexVal? h2, hexVal? h3, hexVal? h4 with
              | some a, some b, some c3, some d =>
                some (Char.ofNat (a * 4096 + b * 256 + c3 * 16 + d), rest3)
              | _, _, _, _ => none
            | _ => none
          else none
        match esc with
        | none => none
        | some (ch, rest3) =>
          match parseStringBody fuel rest3 with
          | none => none
          | some (cs, rest4) => some (ch :: cs, rest4)
    else
      match parseStringBody fuel rest with
      | none => none
      | some (cs, rest2) => some (c :: cs, rest2)

def digitsToNat (ds : List Char) : Nat :=
  ds.foldl (fun acc c => acc * 10 + (c.toNat - '0'.toNat)) 0

/-- Parse a JSON number starting at `l` (first char a digit or `-`). -/
def parseNumber (l : List Char) : Option (Json × List Char) :=
  let (sign, l1) : Int × List Char :=
    match l with
    | '-' :: rest => (-1, rest)
    | _ => (1, l)
  let intDigits := l1.takeWhile Char.isDigit
  let l2 := l1.dropWhile Char.isDigit
  if intDigits.isEmpty then none
  else
    let (fracDigits, l3) : List Char × List Char :=
      match l2 with
      | '.' :: rest => (rest.takeWhile Char.isDigit, rest.dropWhile Char.isDigit)
      | _ => ([], l2)
    if l2 ≠ [] ∧ l2.head? = some '.' ∧ fracDigits.isEmpty then none
    else
      let (hasExp, expSign, expDigits, l4) : Bool × Int × List Char × List Char :=
        match l3 with
        | 'e' :: '+' :: rest => (true, 1, rest.takeWhile Char.isDigit, rest.dropWhile Char.isDigit)
        | 'e' :: '-' :: rest => (true, -1, rest.takeWhile Char.isDigit, rest.dropWhile Char.isDigit)
        | 'e' :: rest => (true, 1, rest.takeWhile Char.isDigit, rest.dropWhile Char.isDigit)
        | 'E' :: '+' :: rest => (true, 1, rest.takeWhile Char.isDigit, rest.dropWhile Char.isDigit)
        | 'E' :: '-' :: rest => (true, -1, rest.takeWhile Char.isDigit, rest.dropWhile Char.isDigit)
        | 'E' :: rest => (true, 1, rest.takeWhile Char.isDigit, rest.dropWhile Char.isDigit)
        | _ => (false, 1, [], l3)
      if hasExp ∧ expDigits.isEmpty then none
      else
        let isFloat := !fracDigits.isEmpty || hasExp
        if isFloat then
          let mantissa : Int := sign * Int.ofNat (digitsToNat (intDigits ++ fracDigits))
          let scale : Int := expSign * Int.ofNat (digitsToNat expDigits) - Int.ofNat fracDigits.length
          let q : ℚ :=
            if 0 ≤ scale then (mantissa : ℚ) * (10 : ℚ) ^ scale.toNat
            else (mantissa : ℚ) / (10 : ℚ) ^ (-scale).toNat
          some (.float q, l4)
        else
          some (.int (sign * Int.ofNat (digitsToNat intDigits)), l4)

mutual

/-- Parse one JSON value, returning it and the unconsumed input. -/
def parseValue (fuel : Nat) (l : List Char) : Option (Json × List Char) :=
  match fuel with
  | 0 => none
  | fuel + 1 =>
    let l := skipWs l
    match l with
    | [] => none
    | c :: rest =>
      if c = Char.ofNat 123 then
        let r := skipWs rest
        match r with
        | d :: r2 =>
          if d = Char.ofNat 125 then some (.obj [], r2)
          else
            match parseMembers fuel r with
            | some (ms, r3) => some (.obj ms, r3)
            | none => none
        | [] => none
      else if c = '[' then
        let r := skipWs rest
        match r with
        | d :: r2 =>
          if d = ']' then some (.arr [], r2)
          else
            match parseElems fuel r with
            | some (es, r3) => some (.arr es, r3)
            | none => none
        | [] => none
      else if c = Char.ofNat 34 then
        match parseStringBody (rest.length + 1) rest with
        | some (cs, r2) => some (.str (String.mk cs), r2)
        | none => none
      else if c = 't' then
        if ['r', 'u', 'e'].isPrefixOf rest then some (.bool true, rest.drop 3) else none
      else if c = 'f' then
        if ['a', 'l', 's', 'e'].isPrefixOf rest then some (.bool false, rest.drop 4) else none
      else if c = 'n' then
        if ['u', 'l', 'l'].isPrefixOf rest then some (.null, rest.drop 3) else none
      else if c.isDigit ∨ c = '-' then
        parseNumber l
      else none

/-- Parse the members of a JSON object (at least one `"key": value`). -/
def parseMembers (fuel : Nat) (l : List Char) : Option (List (String × Json) × List Char) :=
  match fuel with
  | 0 => none
  | fuel + 1 =>
    let l := skipWs l
    match l with
    | c :: rest =>
      if c = Char.ofNat 34 then
        match parseStringBody (rest.length + 1) rest with
        | some (ks, r2) =>
          match skipWs r2 with
          | ':' :: r3 =>
            match parseValue fuel r3 with
            | some (v, r4) =>
              (match skipWs r4 with
               | ',' :: r5 =>
                 match parseMembers fuel r5 with
                 | some (ms, r6) => some ((String.mk ks, v) :: ms, r6)
                 | none => none
               | d :: r5 =>
                 if d = Char.ofNat 125 then some ([(String.mk ks, v)], r5) else none
               | [] => none)
            | none => none
          | _ => none
        | none => none
      else none
    | [] => none

/-- Parse the elements of a JSON array (at least one value). -/
def parseElems (fuel : Nat) (l : List Char) : Option (List Json × List Char) :=
  match fuel with
  | 0 => none
  | fuel + 1 =>
    match parseValue fuel l with
    | some (v, r) =>
      (match skipWs r with
       | ',' :: r2 =>
         match parseElems fuel r2 with
         | some (es, r3) => some (v :: es, r3)
         | none => none
       | ']' :: r2 => some ([v], r2)
       | _ => none)
    | none => none

end

/-- Model of Python's `json.loads`: parse a complete JSON document,
rejecting trailing garbage. -/
def jsonLoads (s : String) : Option Json :=
  match parseValue (s.length * 4 + 4) s.toList with
  | some (j, rest) => if skipWs rest = [] then some j else none
  | none => none

/-- Python `str.strip()` / JavaScript `String.trim()` (whitespace at both
ends; exact for the ASCII whitespace used here). -/
def pyStrip (s : String) : String :=
  String.mk (((s.toList.dropWhile Char.isWhitespace).reverse.dropWhile
    Char.isWhitespace).reverse)

def lowerChar (c : Char) : Char :=
  if 'A' ≤ c ∧ c ≤ 'Z' then Char.ofNat (c.toNat + 32) else c

/-- Python `str.lower()` / JavaScript `toLowerCase()` (exact for ASCII). -/
def pyLower (s : String) : String :=
  String.mk (s.toList.map lowerChar)

/-- Python `s.startswith(p)` / JS `startsWith`. -/
def strStartsWith (s p : String) : Bool :=
  p.toList.isPrefixOf s.toList

/-- Python `s.endswith(p)` / JS `endsWith`. -/
def strEndsWith (s p : String) : Bool :=
  p.toList.reverse.isPrefixOf s.toList.reverse

/-- Python slicing `s[n:]` (character positions). -/
def strDropChars (s : String) (n : Nat) : String :=
  String.mk (s.toList.drop n)

/-- Python slicing `s[:-n]`. -/
def strDropRightChars (s : String) (n : Nat) : String :=
  String.mk (s.toList.take (s.toList.length - n))

/-! ## Regex fragments

The extractor uses three tiny regular expressions
(`\bemail\b`, `\bphone|tel\b`, `submit\s+application`); they are embedded
as direct word-boundary / whitespace-run matchers. -/

/-- A regex word character (`\w`); exact for the ASCII text used here. -/
def isWordChar (c : Char) : Bool :=
  c.isAlphanum || c = '_'

/-- Word boundary to the left of the match position: start of string or a
non-word character. -/
def wbBefore : Option Char → Bool
  | none => true
  | some c => !isWordChar c

/-- Word boundary to the right: end of string or a non-word character. -/
def wbAfter : List Char → Bool
  | [] => true
  | c :: _ => !isWordChar c

/-- Does `needle` match at the head of `l` (with `prev` the character just
before `l`), honouring requested word boundaries? -/
def wordMatchAt (needle : List Char) (leftB rightB : Bool) (prev : Option Char)
    (l : List Char) : Bool :=
  needle.isPrefixOf l && (!leftB || wbBefore prev) && (!rightB || wbAfter (l.drop needle.length))

def wordSearchAux (needle : List Char) (leftB rightB : Bool) :
    Option Char → List Char → Bool
  | prev, [] => wordMatchAt needle leftB rightB prev []
  | prev, c :: rest =>
    wordMatchAt needle leftB rightB prev (c :: rest) ||
      wordSearchAux needle leftB rightB (some c) rest

/-- `re.search` of a plain word with optional `\b` anchors on each side. -/
def reWordSearch (hay needle : String) (leftB rightB : Bool) : Bool :=
  wordSearchAux needle.toList leftB rightB none hay.toList

/-- `re.search(r"submit\s+application", t)`: `submit`, one or more
whitespace characters, `application`. -/
def submitAppAt (l : List Char) : Bool :=
  "submit".toList.isPrefixOf l &&
    (let r := l.drop 6
     !(r.takeWhile Char.isWhitespace).isEmpty &&
       "application".toList.isPrefixOf (r.dropWhile Char.isWhitespace))

def submitAppSearchAux : List Char → Bool
  | [] => false
  | c :: rest => submitAppAt (c :: rest) || submitAppSearchAux rest

def hasSubmitApplicationText (s : String) : Bool :=
  submitAppSearchAux s.toList

/-- Substring occurrence over character lists. -/
def listContainsSub (needle : List Char) : List Char → Bool
  | [] => needle.isPrefixOf []
  | c :: rest => needle.isPrefixOf (c :: rest) || listContainsSub needle rest

/-- Python `needle in hay` substring test. -/
def strContains (hay needle : String) : Bool :=
  listContainsSub needle.toList hay.toList

/-! ## Data model (`src/webbot/forms/schema.py`)

Pydantic models become Lean structures.  The open-ended `meta` dict of a
field carries a statically known set of keys in this code base
(`ariaLabel`, `bbox`, `classes`, `hasDnd`, `visible`, `synthetic`, and
the later-stamped `answer`), so it is embedded as a structure with those
fields; an absent key is `none` / the default the code supplies to
`meta.get`. -/

structure Locator where
  css : Option String := none
  xpath : Option String := none
  aria : Option String := none
  data_testid : Option String := none
  nth : Option String := none

structure BBox where
  x : Int
  y : Int
  w : Nat
  h : Nat

structure FieldMeta where
  ariaLabel : Option String := none
  bbox : Option BBox := none
  classes : Option String := none
  hasDnd : Bool := false
  visible : Bool := false
  synthetic : Bool := false
  answer : Option String := none

structure FormField where
  field_id : String
  name : Option String := none
  label : Option String := none
  placeholder : Option String := none
  type : String
  required : Bool := false
  options : List String := []
  locators : Locator := {}
  meta : FieldMeta := {}

structure FormSection where
  title : Option String := none
  fields : List FormField := []

/-- `Validity.meta` carries only the key the Answer Generator writes. -/
structure ValidityMeta where
  llm_answered_fields : Option Nat := none

structure Validity where
  is_valid_job_application_form : Bool
  confidence : ℚ
  meta : ValidityMeta := {}

structure FormSchema where
  url : Option String := none
  ats : Option String := none
  sections : List FormSection := []
  validity : Validity

/-! ## Form Schema Extractor (`src/webbot/forms/extractor.py`)

The browser page is modelled by `PageEnv`: the document-order result of
`querySelectorAll('input, textarea, select, [role="combobox"],
[contenteditable="true"]')` plus the innerText lists the two signal
detectors read.  The per-element JavaScript of
`_extract_fields_from_page` is embedded by `jsElementInfo`. -/

/-- One DOM node returned by the candidate-element query, with the raw
attribute/style data the extraction JavaScript reads. -/
structure DomNode where
  tagName : String
  typeAttr : Option String := none
  idAttr : String := ""
  nameAttr : Option String := none
  placeholderAttr : Option String := none
  ariaLabelAttr : Option String := none
  ariaLabelledByAttr : Option String := none
  hasRequiredAttr : Bool := false
  ariaRequiredAttr : Option String := none
  roleAttr : Option String := none
  labelForText : Option String := none
  closestLabelText : Option String := none
  styleVisibility : String := "visible"
  styleDisplay : String := "block"
  bbox : BBox := { x := 0, y := 0, w := 0, h := 0 }
  className : String := ""

/-- JavaScript `x || null` on a nullable string (empty string ⇒ null). -/
def jsOrNull : Option String → Option String
  | none => none
  | some s => if s = "" then none else some s

/-- JavaScript truthiness of a nullable string. -/
def jsStrTruthy : Option String → Bool
  | none => false
  | some s => s != ""

/-- The record the extraction JavaScript pushes for one node, or `none`
when the node is a hidden input (skipped by `continue`). -/
structure ElementInfo where
  tag : String
  type : String
  id : Option String
  name : Option String
  placeholder : Option String
  ariaLabel : Option String
  ariaLabelledBy : Option String
  required : Bool
  role : Option String
  label : Option String
  visible : Bool
  bbox : BBox
  classes : Option String
  hasDnd : Bool

def jsElementInfo (n : DomNode) : Option ElementInfo :=
  let tag := pyLower n.tagName
  let ty := pyLower (n.typeAttr.getD "")
  if tag = "input" ∧ ty = "hidden" then none
  else
    let id := jsOrNull (some n.idAttr)
    let ariaLabel := jsOrNull n.ariaLabelAttr
    let lbl0 : Option String :=
      match id with
      | some _ => n.labelForText.map pyStrip
      | none => none
    let lbl1 : Option String :=
      if jsStrTruthy lbl0 then lbl0
      else match n.closestLabelText with
        | some t => some (pyStrip t)
        | none => lbl0
    let lbl2 : Option String :=
      if !jsStrTruthy lbl1 && ariaLabel.isSome then ariaLabel else lbl1
    some
      { tag := tag
        type := ty
        id := id
        name := jsOrNull n.nameAttr
        placeholder := jsOrNull n.placeholderAttr
        ariaLabel := ariaLabel
        ariaLabelledBy := jsOrNull n.ariaLabelledByAttr
        required := n.hasRequiredAttr || n.ariaRequiredAttr == some "true"
        role := jsOrNull n.roleAttr
        label := lbl2
        visible := n.styleVisibility != "hidden" && n.styleDisplay != "none" &&
          decide (0 < n.bbox.w) && decide (0 < n.bbox.h)
        bbox := n.bbox
        classes := jsOrNull (some n.className)
        hasDnd := false }

/-- `_guess_field_type`. -/
def guess_field_type (input_type : String) (tag : String) (role : Option String) : String :=
  if tag = "textarea" then "textarea"
  else if tag = "select" then "select"
  else if tag = "input" then
    let t := pyLower (if input_type = "" then "text" else input_type)
    if (["text", "email", "tel", "number", "date", "file", "checkbox", "radio", "password"] :
        List String).contains t then t
    else "text"
  else if role == some "combobox" then "combobox"
  else "custom"

/-- The Python loop keeps an element when it is visible, or when it is a
file input (kept even when hidden behind custom upload UIs). -/
def keepElement (e : ElementInfo) : Bool :=
  e.visible || (e.tag == "input" && pyLower e.type == "file")

def mkLocator (e : ElementInfo) (idx : Nat) : Locator :=
  match e.id with
  | some i => { css := some ("#" ++ i) }
  | none =>
    match e.name with
    | some nm => { css := some ("[name=\"" ++ nm ++ "\"]") }
    | none => { nth := some (e.tag ++ "[" ++ toString idx ++ "]") }

def mkFormField (idx : Nat) (e : ElementInfo) : FormField :=
  { field_id := "field_" ++ toString idx
    name := e.name
    label := e.label
    placeholder := e.placeholder
    type := guess_field_type e.type e.tag e.role
    required := e.required
    options := []
    locators := mkLocator e idx
    meta :=
      { ariaLabel := e.ariaLabel
        bbox := some e.bbox
        classes := e.classes
        hasDnd := e.hasDnd
        visible := e.visible } }

/-- `for idx, e in enumerate(elements)`: the index counts every element
of the JavaScript result, including ones the loop then skips. -/
def buildFields (idx : Nat) : List ElementInfo → List FormField
  | [] => []
  | e :: rest =>
    if keepElement e then mkFormField idx e :: buildFields (idx + 1) rest
    else buildFields (idx + 1) rest

/-- The extraction environment for one document (main page or one frame). -/
structure PageEnv where
  nodes : List DomNode := []
  uploadNodeTexts : List String := []
  submitNodeTexts : List String := []

/-- `_extract_fields_from_page`. -/
def extract_fields_from_page (env : PageEnv) : List FormField :=
  buildFields 0 (env.nodes.filterMap jsElementInfo)

/-- `_detect_upload_signal`. -/
def detect_upload_signal (env : PageEnv) : Bool :=
  if env.nodes.any (fun n =>
      pyLower n.tagName == "input" && pyLower (n.typeAttr.getD "") == "file") then true
  else
    let texts := (env.uploadNodeTexts.map pyLower).filter (fun t => t != "")
    let hasUploadish := texts.any fun t =>
      strContains t "upload" || strContains t "attach" ||
        strContains t "choose file" || strContains t "select file"
    let hasResumeish := texts.any fun t => strContains t "resume" || strContains t "cv"
    if hasUploadish && hasResumeish then true
    else hasUploadish && texts.any fun t => strContains t "autofill"

/-- `_detect_submit_application_signal`. -/
def detect_submit_application_signal (env : PageEnv) : Bool :=
  ((env.submitNodeTexts.map pyLower).filter (fun t => t != "")).any hasSubmitApplicationText

/-- The synthetic `upload_0` field appended when an upload signal is
present but no native file input was found. -/
def syntheticUploadField : FormField :=
  { field_id := "upload_0"
    label := some "Resume Upload"
    type := "file"
    meta := { synthetic := true, visible := true } }

def visibleFieldsOf (fields : List FormField) : List FormField :=
  fields.filter fun f => f.meta.visible

def fileLikeVisibleCount (fields : List FormField) : Nat :=
  (visibleFieldsOf fields).countP fun f => f.type == "file" || f.meta.hasDnd

/-- `hay = " ".join([name_l, label_l, placeholder_l])`. -/
def fieldHay (f : FormField) : String :=
  pyLower (f.name.getD "") ++ " " ++ pyLower (f.label.getD "") ++ " " ++
    pyLower (f.placeholder.getD "")

/-- The common-personal pattern: `\bemail\b`, `\bphone|tel\b` (which is
`(\bphone)|(tel\b)`), `first`+`name`, or `last`+`name`. -/
def personalFieldHit (hay : String) : Bool :=
  reWordSearch hay "email" true true ||
    (reWordSearch hay "phone" true false || reWordSearch hay "tel" false true) ||
    (strContains hay "first" && strContains hay "name") ||
    (strContains hay "last" && strContains hay "name")

def commonPersonalCount (fields : List FormField) : Nat :=
  (visibleFieldsOf fields).countP fun f => personalFieldHit (fieldHay f)

def anyFileTyped (fields : List FormField) : Bool :=
  fields.any fun f => f.type == "file"

/-- `round(conf, 2)`.  Python rounds half to even; every confidence in
this code is an exact multiple of 1/100, on which rounding is the
identity either way. -/
def pyRound2 (q : ℚ) : ℚ :=
  (round (q * 100) : ℤ) / 100

/-- The fields produced by the live extraction, after optional synthesis
of `upload_0`. -/
def liveFields (env : PageEnv) : List FormField :=
  let fields := extract_fields_from_page env
  if anyFileTyped fields then fields
  else if detect_upload_signal env then fields ++ [syntheticUploadField]
  else fields

def liveFileLikeAny (env : PageEnv) : Bool :=
  decide (0 < fileLikeVisibleCount (liveFields env)) || anyFileTyped (liveFields env) ||
    detect_upload_signal env

/-- `extract_form_schema_from_page` (live-page variant). -/
def extract_form_schema_from_page (env : PageEnv) (url : Option String) : FormSchema :=
  let fields := liveFields env
  let visible := visibleFieldsOf fields
  let cp := commonPersonalCount fields
  let file_like_any := liveFileLikeAny env
  let submit_signal := detect_submit_application_signal env
  let is_valid := file_like_any && (decide (1 ≤ cp) || submit_signal) &&
    decide (3 ≤ visible.length)
  let conf : ℚ :=
    if is_valid then
      min 1 ((2 : ℚ)/5 + (if file_like_any then (1 : ℚ)/5 else 0) + (cp : ℚ)/10 +
        (visible.length : ℚ)/50)
    else (1 : ℚ)/5
  { url := url
    ats := none
    sections := [{ title := none, fields := fields }]
    validity := { is_valid_job_application_form := is_valid, confidence := pyRound2 conf } }

/-- A saved snapshot: the main document plus the frame documents that
could be loaded (`none` models a frame whose `dom_path` is missing or
unreadable, which the loop skips). -/
structure SnapshotEnv where
  url : Option String := none
  mainPage : PageEnv := {}
  frames : List (Option PageEnv) := []

def snapshotFramePages (env : SnapshotEnv) : List PageEnv :=
  env.frames.filterMap id

/-- Field aggregation across the main document and every loaded frame:
`_extract_fields_from_page` is re-run per document, restarting its
enumeration each time. -/
def snapshotAllFields (env : SnapshotEnv) : List FormField :=
  extract_fields_from_page env.mainPage ++
    ((snapshotFramePages env).map extract_fields_from_page).flatten

def snapshotUploadAny (env : SnapshotEnv) : Bool :=
  detect_upload_signal env.mainPage || (snapshotFramePages env).any detect_upload_signal

def snapshotSubmitAny (env : SnapshotEnv) : Bool :=
  detect_submit_application_signal env.mainPage ||
    (snapshotFramePages env).any detect_submit_application_signal

def snapshotFileLikeAny (env : SnapshotEnv) : Bool :=
  decide (0 < fileLikeVisibleCount (snapshotAllFields env)) ||
    anyFileTyped (snapshotAllFields env) || snapshotUploadAny env

/-- `extract_form_schema_from_snapshot_dir`.  Note the confidence term
`0.2 * file_like_visible` (a count), where the live variant uses
`0.2 * (1 if file_like_any else 0)`. -/
def extract_form_schema_from_snapshot_dir (env : SnapshotEnv) : FormSchema :=
  let all_fields := snapshotAllFields env
  let visible := visibleFieldsOf all_fields
  let flv := fileLikeVisibleCount all_fields
  let cp := commonPersonalCount all_fields
  let file_like_any := snapshotFileLikeAny env
  let is_valid := file_like_any && (decide (1 ≤ cp) || snapshotSubmitAny env) &&
    decide (3 ≤ visible.length)
  let conf : ℚ :=
    if is_valid then
      min 1 ((2 : ℚ)/5 + (flv : ℚ)/5 + (cp : ℚ)/10 + (visible.length : ℚ)/50)
    else (1 : ℚ)/5
  { url := env.url
    ats := none
    sections := [{ title := none, fields := all_fields }]
    validity := { is_valid_job_application_form := is_valid, confidence := pyRound2 conf } }

/-! ## Answer Generator (`src/webbot/forms/answerer.py`)

The single LLM call is the environment: `generate_answers` becomes a
function of the schema and the raw response text (`None` when the API
returned no content).  Prompt construction (`_build_fields_brief`,
`_compose_prompt`, the 12000/6000-character truncations) only feeds the
external model and has no effect on the returned schema, so it is not
modelled. -/

/-- `raw = resp.choices[0].message.content or "{}"`. -/
def rawOrEmptyObj : Option String → String
  | none => "\x7b\x7d"
  | some s => if s = "" then "\x7b\x7d" else s

/-- The defensive parse: `json.loads` under `try/except`, then
`data.get("answers")` only when both `data` and the value are dicts. -/
def answersOf (raw : String) : List (String × Json) :=
  match jsonLoads raw with
  | some (.obj members) =>
    match objGet members "answers" with
    | some (.obj a) => a
    | _ => []
  | _ => []

/-- The body of the fill-into-schema loop for one field: stamp
`meta["answer"]` when the field id occurs in the answers map (checkbox /
radio values normalized from `str(val).strip().lower()`), leave the
field untouched otherwise. -/
def stampField (answers : List (String × Json)) (f : FormField) : FormField :=
  match objGet answers f.field_id with
  | none => f
  | some val =>
    if f.type == "checkbox" || f.type == "radio" then
      let sval := pyLower (pyStrip (pyStr val))
      let normalized := if (["1", "true", "yes", "on"] : List String).contains sval
        then "true" else "false"
      { f with meta := { f.meta with answer := some normalized } }
    else
      { f with meta := { f.meta with answer := some (pyStr val) } }

def answeredCount (answers : List (String × Json)) (schema : FormSchema) : Nat :=
  schema.sections.foldl
    (fun acc sec => acc + sec.fields.countP fun f => objHasKey answers f.field_id) 0

/-- `generate_answers`: mutate the schema in place (here: rebuild it),
stamping answers and recording `validity.meta["llm_answered_fields"]`. -/
def generate_answers (schema : FormSchema) (rawResponse : Option String) : FormSchema :=
  let answers := answersOf (rawOrEmptyObj rawResponse)
  { schema with
    sections := schema.sections.map fun sec =>
      { sec with fields := sec.fields.map (stampField answers) }
    validity := { schema.validity with
      meta := { llm_answered_fields := some (answeredCount answers schema) } } }

/-! ## Fill-Plan Executor (`src/webbot/forms/executor.py`)

The live page is modelled by `ExecPage` (the static DOM: elements with a
kind and a visibility flag, and the results of the locator queries the
executor issues) and `ExecState` (the mutable per-element value/checked
state).  Browser interactions either succeed — appending a
`BrowserAction` and updating the state — or raise, which the source
catches; an attempted action is therefore an `Option`. -/

inductive ElemKind where
  | textInput
  | textareaElem
  | selectElem
  | checkboxInput
  | radioInput
  | fileInput
  | other
  deriving DecidableEq

structure ExElem where
  kind : ElemKind
  visible : Bool := true

structure ExecPage where
  elems : List ExElem := []
  queryCss : String → List Nat := fun _ => []
  queryLabel : String → List Nat := fun _ => []
  queryPlaceholder : String → List Nat := fun _ => []
  queryRoleCheckbox : String → List Nat := fun _ => []
  queryText : String → List Nat := fun _ => []
  selectHasOption : Nat → String → Bool := fun _ _ => false

structure ExecState where
  values : Nat → String
  checked : Nat → Bool

inductive BrowserAction where
  | fill (el : Nat) (value : String)
  | click (el : Nat)
  | selectOption (el : Nat) (value : String)
  | check (el : Nat)
  | setInputFiles (el : Nat) (path : String)
  deriving DecidableEq

def elemAt (pg : ExecPage) (el : Nat) : ExElem :=
  pg.elems.getD el { kind := .other, visible := false }

def elemKind (pg : ExecPage) (el : Nat) : ElemKind :=
  (elemAt pg el).kind

def elemVisible (pg : ExecPage) (el : Nat) : Bool :=
  (elemAt pg el).visible

/-- Kinds `locator.fill` accepts. -/
def fillableKind : ElemKind → Bool
  | .textInput => true
  | .textareaElem => true
  | _ => false

/-- `input_value()` succeeds on input / textarea / select elements. -/
def inputValueRead (pg : ExecPage) (st : ExecState) (el : Nat) : Option String :=
  match elemKind pg el with
  | .other => none
  | _ => some (st.values el)

/-- `is_checked()` succeeds only on checkbox / radio inputs. -/
def isCheckedRead (pg : ExecPage) (st : ExecState) (el : Nat) : Option Bool :=
  match elemKind pg el with
  | .checkboxInput => some (st.checked el)
  | .radioInput => some (st.checked el)
  | _ => none

def setValue (st : ExecState) (el : Nat) (v : String) : ExecState :=
  { st with values := fun i => if i = el then v else st.values i }

/-- Click effect on the element state: native checkboxes toggle, native
radios become checked; for other elements any JavaScript side effect is
outside the model. -/
def doClickState (pg : ExecPage) (st : ExecState) (el : Nat) : ExecState :=
  match elemKind pg el with
  | .checkboxInput => { st with checked := fun i => if i = el then !st.checked el else st.checked i }
  | .radioInput => { st with checked := fun i => if i = el then true else st.checked i }
  | _ => st

def doCheckState (st : ExecState) (el : Nat) : ExecState :=
  { st with checked := fun i => if i = el then true else st.checked i }

/-- `locator.fill(v)`: raises (`none`) unless the element is a visible
fillable element. -/
def tryFill (pg : ExecPage) (st : ExecState) (el : Nat) (v : String) :
    Option (ExecState × BrowserAction) :=
  if elemVisible pg el && fillableKind (elemKind pg el) then
    some (setValue st el v, .fill el v)
  else none

/-- `locator.click()`: raises unless the element is visible/actionable. -/
def tryClick (pg : ExecPage) (st : ExecState) (el : Nat) :
    Option (ExecState × BrowserAction) :=
  if elemVisible pg el then some (doClickState pg st el, .click el) else none

/-- `select_option(v)`: raises unless a visible select with a matching
option value. -/
def trySelectOption (pg : ExecPage) (st : ExecState) (el : Nat) (v : String) :
    Option (ExecState × BrowserAction) :=
  if elemVisible pg el && elemKind pg el == .selectElem && pg.selectHasOption el v then
    some (setValue st el v, .selectOption el v)
  else none

/-- `check()`: raises unless a visible checkbox/radio input. -/
def tryCheck (pg : ExecPage) (st : ExecState) (el : Nat) :
    Option (ExecState × BrowserAction) :=
  if elemVisible pg el &&
      (elemKind pg el == .checkboxInput || elemKind pg el == .radioInput) then
    some (doCheckState st el, .check el)
  else none

/-- `set_input_files`: raises unless the element is a file input (hidden
file inputs are fine). -/
def trySetFiles (pg : ExecPage) (st : ExecState) (el : Nat) (path : String) :
    Option (ExecState × BrowserAction) :=
  if elemKind pg el == .fileInput then some (setValue st el path, .setInputFiles el path)
  else none

/-- `if await loc.count() > 0: await loc.first.click()` under `try`. -/
def tryClickHead (pg : ExecPage) (st : ExecState) :
    List Nat → Option (ExecState × BrowserAction)
  | [] => none
  | e :: _ => tryClick pg st e

/-- Python `(a or b or "")` on two optional strings. -/
def pyOrStrings (a b : Option String) : String :=
  if jsStrTruthy a then a.getD ""
  else if jsStrTruthy b then b.getD ""
  else ""

def textLikeFillTypes : List String := ["text", "email", "tel", "number", "date"]

def textLikeTypes : List String := ["text", "email", "tel", "number", "date", "textarea"]

/-- `sel = field.locators.css or None` (empty string becomes `None`). -/
def cssOrNone (l : Locator) : Option String :=
  match l.css with
  | some s => if s = "" then none else some s
  | none => none

/-- The checkbox arm of `_fill_field` (executor.py lines 160-207). -/
def checkboxFill (pg : ExecPage) (st : ExecState) (field : FormField)
    (locs : List Nat) (value : String) : ExecState × List BrowserAction :=
  let target_truthy := (["1", "true", "yes", "on"] : List String).contains (pyLower value)
  if !target_truthy then (st, [])
  else
    let label_txt := pyStrip (pyOrStrings field.label field.name)
    let primary := tryClickHead pg st locs
    let viaStrategies : Option (ExecState × BrowserAction) :=
      primary <|>
        (if label_txt ≠ "" then
          tryClickHead pg st (pg.queryRoleCheckbox label_txt) <|>
            tryClickHead pg st (pg.queryLabel label_txt) <|>
            tryClickHead pg st (pg.queryText label_txt)
        else none)
    match viaStrategies with
    | some (st2, a) => (st2, [a])
    | none =>
      match locs with
      | [] => (st, [])
      | e :: _ =>
        match isCheckedRead pg st e with
        | none => (st, [])
        | some true => (st, [])
        | some false =>
          match tryCheck pg st e with
          | some (st2, a) => (st2, [a])
          | none => (st, [])

/-- `_fill_field`. -/
def fill_field (pg : ExecPage) (st : ExecState) (field : FormField) (value : String) :
    ExecState × List BrowserAction :=
  match cssOrNone field.locators with
  | none =>
    let label_txt := pyStrip (field.label.getD "")
    let placeholder_txt := pyStrip (field.placeholder.getD "")
    let labelAttempt : Option (ExecState × BrowserAction) :=
      if label_txt ≠ "" then
        match pg.queryLabel label_txt with
        | [] => none
        | e :: rest =>
          if textLikeTypes.contains field.type then
            if rest.isEmpty then tryFill pg st e value else none
          else none
      else none
    match labelAttempt with
    | some (st2, a) => (st2, [a])
    | none =>
      let placeholderAttempt : Option (ExecState × BrowserAction) :=
        if placeholder_txt ≠ "" then
          match pg.queryPlaceholder placeholder_txt with
          | [] => none
          | e :: rest =>
            if textLikeTypes.contains field.type then
              if rest.isEmpty then tryFill pg st e value else none
            else none
        else none
      match placeholderAttempt with
      | some (st2, a) => (st2, [a])
      | none => (st, [])
  | some sel =>
    let label_txt := pyStrip (field.label.getD "")
    let placeholder_txt := pyStrip (field.placeholder.getD "")
    let locs0 := pg.queryCss sel
    let locs1 := if locs0.isEmpty ∧ label_txt ≠ "" then pg.queryLabel label_txt else locs0
    let locs2 :=
      if locs1.isEmpty ∧ placeholder_txt ≠ "" then pg.queryPlaceholder placeholder_txt
      else locs1
    match locs2 with
    | [] => (st, [])
    | e :: _ =>
      if textLikeFillTypes.contains field.type then
        match tryFill pg st e value with
        | some (st2, a) => (st2, [a])
        | none => (st, [])
      else if field.type == "textarea" then
        match tryFill pg st e value with
        | some (st2, a) => (st2, [a])
        | none => (st, [])
      else if field.type == "select" then
        match trySelectOption pg st e value with
        | some (st2, a) => (st2, [a])
        | none =>
          match tryClick pg st e with
          | some (st2, a) => (st2, [a])
          | none => (st, [])
      else if field.type == "checkbox" then
        checkboxFill pg st field locs2 value
      else if field.type == "radio" then
        match tryClick pg st e with
        | some (st2, a) => (st2, [a])
        | none => (st, [])
      else
        match tryFill pg st e value with
        | some (st2, a) => (st2, [a])
        | none => (st, [])

/-- The body of the per-field loop of `execute_fill_plan` for one field:
skip empty answers and file fields, skip pre-populated elements, then
dispatch to `_fill_field` — except that for text-like types the progress
print on executor.py line 268 references the undefined name `field` (the
loop variable is `f`), raising a `NameError` that the per-field handler
catches, so text-like fields never reach `_fill_field`. -/
def processField (pg : ExecPage) (st : ExecState) (f : FormField) :
    ExecState × List BrowserAction :=
  match f.meta.answer with
  | none => (st, [])
  | some a =>
    if a = "" then (st, [])
    else if f.type == "file" then (st, [])
    else
      let prepopulated : Bool :=
        if textLikeTypes.contains f.type then
          match cssOrNone f.locators with
          | some s =>
            match pg.queryCss s with
            | [] => false
            | e :: _ =>
              match inputValueRead pg st e with
              | some v => v ≠ "" && pyStrip v ≠ ""
              | none => false
          | none => false
        else if f.type == "checkbox" || f.type == "radio" then
          match cssOrNone f.locators with
          | some s =>
            match pg.queryCss s with
            | [] => false
            | e :: _ => (isCheckedRead pg st e).getD false
          | none => false
        else false
      if prepopulated then (st, [])
      else if textLikeTypes.contains f.type then (st, [])
      else fill_field pg st f a

/-- `_pick_resume_pdf`: `random.choice` over the glob result, modelled by
an environment-chosen index. -/
def pickResume (candidates : List String) (pick : Nat) : Option String :=
  if candidates.isEmpty then none
  else some (candidates.getD (pick % candidates.length) "")

def uploadVisibleLoop (pg : ExecPage) (st : ExecState) (path : String) :
    List Nat → Option (ExecState × BrowserAction)
  | [] => none
  | e :: rest =>
    if elemVisible pg e then
      match trySetFiles pg st e path with
      | some r => some r
      | none => uploadVisibleLoop pg st path rest
    else uploadVisibleLoop pg st path rest

def uploadButtonSelectors : List String :=
  ["button:has-text('Upload file')", "button:has-text('Upload File')",
   "button:has-text('Upload Resume')", "label:has-text('Upload')"]

def uploadButtonLoop (pg : ExecPage) (st : ExecState) (path : String) :
    List String → ExecState × List BrowserAction × Bool
  | [] => (st, [], false)
  | sel :: rest =>
    match pg.queryCss sel with
    | [] => uploadButtonLoop pg st path rest
    | e :: _ =>
      match tryClick pg st e with
      | none => uploadButtonLoop pg st path rest
      | some (st2, a) =>
        match pg.queryCss "input[type=\"file\"]" with
        | [] => uploadButtonLoop pg st2 path rest
        | fe :: _ =>
          match trySetFiles pg st2 fe path with
          | some (st3, b) => (st3, [a, b], true)
          | none => uploadButtonLoop pg st2 path rest

/-- `_upload_resume`. -/
def upload_resume (pg : ExecPage) (st : ExecState) (resume_pdf : String) :
    ExecState × List BrowserAction × Bool :=
  let fileLocs := pg.queryCss "input[type=\"file\"]"
  match uploadVisibleLoop pg st resume_pdf fileLocs with
  | some (st2, a) => (st2, [a], true)
  | none =>
    match fileLocs with
    | fe :: _ =>
      (match trySetFiles pg st fe resume_pdf with
       | some (st2, a) => (st2, [a], true)
       | none => uploadButtonLoop pg st resume_pdf uploadButtonSelectors)
    | [] => uploadButtonLoop pg st resume_pdf uploadButtonSelectors

def schemaFields (schema : FormSchema) : List FormField :=
  (schema.sections.map FormSection.fields).flatten

/-- `execute_fill_plan`: resume upload first, then the per-field pass;
the final hold-open wait has no model effect. -/
def execute_fill_plan (pg : ExecPage) (st : ExecState) (schema : FormSchema)
    (resumeCandidates : List String) (pick : Nat) : ExecState × List BrowserAction :=
  let start : ExecState × List BrowserAction :=
    match pickResume resumeCandidates pick with
    | none => (st, [])
    | some pdf =>
      match upload_resume pg st pdf with
      | (st1, acts, _) => (st1, acts)
  (schemaFields schema).foldl
    (fun acc f =>
      match processField pg acc.1 f with
      | (st2, acts) => (st2, acc.2 ++ acts))
    start

/-! ## Apply-URL Resolver
(`src/webbot/agents/find_apply_page_gpt5.py`, three-stage variant, and
`find_apply_page_gpt5beta.py`, single-shot variant)

External effects become `ResolverEnv`: page visits (goto + scroll +
link/text extraction, `none` modelling a raised navigation error) and
the LLM response at each call site (keyed by the page URL where one call
site runs for several URLs).  Scrolling, waits and screenshots have no
observable effect and are not modelled; `print`/`json_blob` logging is
dropped; the three `event(...)` emissions of the three-stage variant are
kept as the `events` trace, which is how "stage 2 was entered" is
observed. -/

structure LinkInfo where
  text : String
  href : String
  title : String := ""

structure ResolvedLink where
  text : String
  url : String
  title : String := ""

structure PageData where
  links : List LinkInfo := []
  bodyText : String := ""
  title : String := ""

structure ResolverEnv where
  companyExtractResponse : String := ""
  stage1Response : String := ""
  linkAnalysisResponse : String := ""
  careersAnalysisResponse : String → String := fun _ => ""
  stage3AnalysisResponse : String → String := fun _ => ""
  jobVerificationResponse : String → String := fun _ => ""
  visit : String → Option PageData := fun _ => none
  clickApply : String → String → Option String := fun _ _ => none

/-- `urljoin`: pass-through for absolute URLs (browser `a.href` values
are always absolute); naive join otherwise. -/
def urljoin (base url : String) : String :=
  if strStartsWith url "http://" || strStartsWith url "https://" then url
  else base ++ "/" ++ url

/-- The link-extraction JavaScript: `textContent.trim()`, keep links with
non-empty text. -/
def jsExtractLinks (links : List LinkInfo) : List LinkInfo :=
  (links.map fun l => { l with text := pyStrip l.text }).filter fun l => l.text ≠ ""

def resolveLink (base : String) (l : LinkInfo) : ResolvedLink :=
  { text := l.text, url := urljoin base l.href, title := l.title }

def resolvedLinksOf (base : String) (pd : PageData) : List ResolvedLink :=
  (jsExtractLinks pd.links).map (resolveLink base)

/-- `any(keyword in link["text"].lower() for keyword in kws)`. -/
def textHasAny (t : String) (kws : List String) : Bool :=
  kws.any fun kw => strContains (pyLower t) kw

/-- Markdown code-fence stripping before `json.loads` (Stage 2/3 only;
Stage 1 parses the raw response). -/
def stripFence (content : String) : String :=
  let c := pyStrip content
  let c := if strStartsWith c "```json" then strDropChars c 7 else c
  let c := if strEndsWith c "```" then strDropRightChars c 3 else c
  pyStrip c

/-- Python `x[0]`: head of a list (`IndexError` on empty → `none`), first
character of a string, `TypeError` (→ `none`) otherwise. -/
def jIndex0 : Json → Option Json
  | .arr (x :: _) => some x
  | .str s =>
    match s.toList with
    | c :: _ => some (.str (String.mk [c]))
    | [] => none
  | _ => none

/-- Python `d[k]`: `KeyError` / `TypeError` become `none`. -/
def jSubscript : Json → String → Option Json
  | .obj m, k => objGet m k
  | _, _ => none

/-- Python `j == "s"` for a JSON value against a string literal. -/
def jEqStr : Json → String → Bool
  | .str t, s => t == s
  | _, _ => false

/-- `split('.')` on a host name. -/
def splitCharAux (c : Char) (acc : List Char) : List Char → List String
  | [] => [String.mk acc.reverse]
  | x :: rest =>
    if x = c then String.mk acc.reverse :: splitCharAux c [] rest
    else splitCharAux c (x :: acc) rest

def urlHost (u : String) : String :=
  let afterScheme :=
    if strStartsWith u "http://" then strDropChars u 7
    else if strStartsWith u "https://" then strDropChars u 8
    else u
  String.mk (afterScheme.toList.takeWhile fun c =>
    !(c = '/' || c = '?' || c = '#' || c = ':'))

/-- `apply_finder.domain`: tldextract's registrable domain, modelled over
a fixed sample of the public-suffix list (exact for the hosts appearing
in this development), lowercased. -/
def domain (host_or_url : String) : String :=
  let host := urlHost host_or_url
  let labels := splitCharAux '.' [] host.toList
  match labels.reverse with
  | suffix :: dom :: _ =>
    if (["com", "org", "net", "io", "ai", "co", "dev", "app", "edu", "gov"] :
        List String).contains (pyLower suffix) then
      pyLower (dom ++ "." ++ suffix)
    else pyLower suffix
  | [single] => pyLower single
  | [] => ""

/-- `_stage1_find_official_website`: the company-name extraction feeds
only the prompt; the result is the parse of the search response
(`json.loads` with no fence stripping), `None` on parse failure. -/
def stage1_find_official_website (env : ResolverEnv) : Option Json :=
  jsonLoads env.stage1Response

/-- `_analyze_careers_page`. -/
def analyze_careers_page (env : ResolverEnv) (careers_url : Json) :
    Option (List (String × Json)) :=
  match careers_url with
  | .str u =>
    match env.visit u with
    | none => none
    | some _pd =>
      match jsonLoads (stripFence (env.careersAnalysisResponse u)) with
      | none => some [("careers_url", careers_url)]
      | some (.obj m) =>
        let apply_url := objGetD m "apply_url" .null
        if pyTruthy apply_url then
          some [("apply_url", apply_url), ("careers_url", careers_url)]
        else some [("careers_url", careers_url)]
      | some _ => none
  | _ => none

/-- `_analyze_about_page`. -/
def analyze_about_page (env : ResolverEnv) (about_url : Json) :
    Option (List (String × Json)) :=
  match about_url with
  | .str u =>
    match env.visit u with
    | none => none
    | some pd =>
      let careers := (resolvedLinksOf u pd).filter fun l =>
        textHasAny l.text ["career", "job", "work", "apply"]
      match careers with
      | [] => none
      | c :: _ => analyze_careers_page env (.str c.url)
  | _ => none

/-- `_stage2_find_careers_page`. -/
def stage2_find_careers_page (env : ResolverEnv) (official_domain : Json) :
    Option (List (String × Json)) :=
  let main_url := "https://" ++ pyStr official_domain
  match env.visit main_url with
  | none => none
  | some pd =>
    let resolved := resolvedLinksOf main_url pd
    let about_links := resolved.filter fun l =>
      textHasAny l.text ["about", "company", "team"]
    let _all_links := (about_links.take 2).foldl
      (fun acc al =>
        match env.visit al.url with
        | none => acc
        | some apd => acc ++ (resolvedLinksOf al.url apd).map id) resolved
    match jsonLoads (stripFence env.linkAnalysisResponse) with
    | none => none
    | some (.obj m) =>
      let careers_links := objGetD m "careers_links" (.arr [])
      let about2 := objGetD m "about_links" (.arr [])
      let email := objGetD m "email_instructions" .null
      let emailCheck : Option (List (String × Json)) :=
        if pyTruthy email then some [("email_instructions", email)] else none
      let afterCareers : Option (List (String × Json)) :=
        if pyTruthy about2 && !pyTruthy careers_links then
          match jIndex0 about2 with
          | none => none
          | some about_url =>
            match analyze_about_page env about_url with
            | some r => some r
            | none => emailCheck
        else emailCheck
      if pyTruthy careers_links then
        match jIndex0 careers_links with
        | none => none
        | some careers_url =>
          match analyze_careers_page env careers_url with
          | some r => some r
          | none => afterCareers
      else afterCareers
    | some _ => none

/-- `_stage3_validate_and_navigate`.  The source recurses with no depth
bound when the page classifies as `overview_page`; the `fuel` parameter
makes the recursion well-founded and is never exhausted in this
development. -/
def stage3_validate_and_navigate (env : ResolverEnv) :
    Nat → Json → String → Option Json
  | 0, _, _ => none
  | fuel + 1, .str u, jds =>
    (match env.visit u with
     | none => none
     | some pd =>
       let resolved := resolvedLinksOf u pd
       match jsonLoads (stripFence (env.stage3AnalysisResponse u)) with
       | none => none
       | some (.obj m) =>
         let page_type := objGetD m "page_type" (.str "unknown")
         if jEqStr page_type "job_posting" then
           let found := pyTruthy (objGetD m "apply_button_found" (.bool false))
           let btext := objGetD m "apply_button_text" (.str "")
           if found then
             match env.clickApply u (pyStr btext) with
             | some newUrl => some (.str newUrl)
             | none => none
           else none
         else if jEqStr page_type "job_listings" then
           let matching := objGetD m "matching_job_links" (.arr [])
           if pyTruthy matching then
             match jIndex0 matching with
             | none => none
             | some job_url_j =>
               match job_url_j with
               | .str ju =>
                 (match env.visit ju with
                  | none => none
                  | some _jpd =>
                    match jsonLoads (stripFence (env.jobVerificationResponse ju)) with
                    | none => some job_url_j
                    | some (.obj vm) =>
                      let matchesB := pyTruthy (objGetD vm "matches" (.bool false))
                      let bfound :=
                        pyTruthy (objGetD vm "apply_button_found" (.bool false))
                      let btext := objGetD vm "apply_button_text" (.str "")
                      if matchesB && bfound then
                        match env.clickApply ju (pyStr btext) with
                        | some fu => some (.str fu)
                        | none => some job_url_j
                      else if matchesB then some job_url_j
                      else none
                    | some _ => none)
               | _ => none
           else none
         else if jEqStr page_type "overview_page" then
           let nav := resolved.filter fun l =>
             textHasAny l.text ["job", "career", "position", "opening", "apply"]
           match nav with
           | [] => none
           | c :: _ => stage3_validate_and_navigate env fuel (.str c.url) jds
         else none
       | some _ => none)
  | _ + 1, _, _ => none

/-- One `event(...)` emission of the three-stage resolver. -/
inductive REvent where
  | stage1Start (job_url : String)
  | stage2Start (official_domain : Json)
  | stage3Start (careers_url : Json)

structure Agentic5Trace where
  stage1 : Option Json := none

/-- `result = none` models an uncaught Python exception (e.g. a parsed
Stage 1 value without an `official_domain` key). -/
structure Agentic5Outcome where
  result : Option (Option Json × Agentic5Trace)
  events : List REvent

/-- `agentic5_find_apply_url`, the three-stage variant.  Note: the
`do_not_apply_domains` parameter is accepted but never read by the
source. -/
def agentic5_find_apply_url (env : ResolverEnv) (job_url : String)
    (job_description_summary : String) (_do_not_apply_domains : List String)
    (stage3Fuel : Nat) : Agentic5Outcome :=
  let events0 : List REvent := [.stage1Start job_url]
  let stage1_result := stage1_find_official_website env
  let trace : Agentic5Trace := { stage1 := stage1_result }
  match stage1_result with
  | none => { result := some (none, trace), events := events0 }
  | some j =>
    if !pyTruthy j then { result := some (none, trace), events := events0 }
    else
      match jSubscript j "official_domain" with
      | none => { result := none, events := events0 }
      | some officialDomain =>
        let events1 := events0 ++ [.stage2Start officialDomain]
        match stage2_find_careers_page env officialDomain with
        | none => { result := some (none, trace), events := events1 }
        | some s2 =>
          let careers_url := objGetD s2 "careers_url" .null
          let apply_url := objGetD s2 "apply_url" .null
          let email := objGetD s2 "email_instructions" .null
          if pyTruthy apply_url then
            { result := some (some apply_url, trace), events := events1 }
          else if pyTruthy careers_url then
            let events2 := events1 ++ [.stage3Start careers_url]
            match stage3_validate_and_navigate env stage3Fuel careers_url
                job_description_summary with
            | some u => { result := some (some u, trace), events := events2 }
            | none => { result := some (some careers_url, trace), events := events2 }
          else if pyTruthy email then
            { result := some (none, trace), events := events1 }
          else { result := some (none, trace), events := events1 }

/-! ### Single-shot beta variant -/

/-- One content part of an Assistants-API message: `part.get("text")`. -/
structure BetaPart where
  text : Option Json := none

structure BetaMsg where
  role : String := ""
  content : List BetaPart := []

/-- `text_obj = part.get("text") or {}; val = text_obj.get("value")`.
Outer `none` models the `AttributeError` raised when `text` is a truthy
non-dict. -/
def betaPartValue : BetaPart → Option (Option Json)
  | { text := none } => some none
  | { text := some t } =>
    if !pyTruthy t then some none
    else
      match t with
      | .obj m => some (objGet m "value")
      | _ => none

def scanParts : List BetaPart → Option (Option Json)
  | [] => some none
  | p :: rest =>
    match betaPartValue p with
    | none => none
    | some val =>
      match val with
      | some (.str s) =>
        if pyStrip s ≠ "" then
          match jsonLoads s with
          | some j => some (some j)
          | none => scanParts rest
        else scanParts rest
      | _ => scanParts rest

def scanMsgs : List BetaMsg → Option (Option Json)
  | [] => some none
  | m :: rest =>
    if m.role == "assistant" then
      match scanParts m.content with
      | none => none
      | some (some j) => some (some j)
      | some none => scanMsgs rest
    else scanMsgs rest

/-- `_parse_json_from_messages` (`none` = uncaught exception). -/
def parse_json_from_messages (items : List BetaMsg) : Option Json :=
  match scanMsgs items with
  | none => none
  | some (some j) => some j
  | some none => some (.obj [])

/-- `_violates_dna`. -/
def violates_dna (url : Json) (disallowed : List String) : Bool :=
  if !pyTruthy url then false
  else
    match url with
    | .str u =>
      let d := domain u
      disallowed.any fun bad => strEndsWith d bad || strContains d bad
    | _ => false

structure BetaTrace where
  picks : List (String × Json)
  raw : Json

/-- `agentic5beta_find_apply_url`: the assistant run itself is external;
its visible messages are the environment.  The returned URL is a `Json`
(`null` = Python `None`); outer `none` models an uncaught exception. -/
def agentic5beta_find_apply_url (items : List BetaMsg)
    (disallowed_domains : Option (List String)) : Option (Json × BetaTrace) :=
  let disallowed := disallowed_domains.getD []
  match parse_json_from_messages items with
  | none => none
  | some data =>
    match data with
    | .obj m =>
      let picks : List (String × Json) :=
        [("official_domain", objGetD m "official_domain" .null),
         ("careers_url", objGetD m "careers_url" .null),
         ("apply_url", objGetD m "apply_url" .null)]
      let trace : BetaTrace := { picks := picks, raw := data }
      let applyJ := objGetD m "apply_url" .null
      let careersJ := objGetD m "careers_url" .null
      let best := if pyTruthy applyJ then applyJ else careersJ
      let best := if violates_dna best disallowed then .null else best
      some (best, trace)
    | _ => none

/-! ## Spec-side definitions

Definitions written from the specification's wording, to be compared
with the code embeddings above. -/

/-- The spec's validity verdict:
`is_valid = file_like_any AND (common_personal >= 1 OR submit_signal)
AND count(visible_fields) >= 3`. -/
def specIsValid (file_like_any : Bool) (common_personal : ℕ) (submit_signal : Bool)
    (visible_count : ℕ) : Bool :=
  file_like_any && (decide (1 ≤ common_personal) || submit_signal) &&
    decide (3 ≤ visible_count)

/-- The confidence formula as the claim states it, for both variants:
`0.4 + 0.2*file_like_indicator + 0.1*common_personal +
0.02*visible_field_count`, clamped to 1.0, with `file_like_indicator`
1 when any file-like signal is present. -/
def specClaimConfidence (file_like_indicator : Bool) (common_personal visible_count : ℕ) : ℚ :=
  min 1 ((2 : ℚ)/5 + (if file_like_indicator then (1 : ℚ)/5 else 0) +
    (common_personal : ℚ)/10 + (visible_count : ℚ)/50)

/-- What the snapshot variant actually computes: `0.2` per *visible*
file-like field instead of the 0/1 indicator. -/
def specSnapshotConfidence (file_like_visible common_personal visible_count : ℕ) : ℚ :=
  min 1 ((2 : ℚ)/5 + (file_like_visible : ℚ)/5 + (common_personal : ℚ)/10 +
    (visible_count : ℚ)/50)

/-- The spec's answer normalization: checkbox/radio values are
case-insensitively matched against `{"1","true","yes","on"}` and stored
as `"true"`/`"false"`; every other type stores the stringified value
verbatim. -/
def specNormalizeAnswer (ftype : String) (v : Json) : String :=
  if ftype = "checkbox" ∨ ftype = "radio" then
    if (["1", "true", "yes", "on"] : List String).contains (pyLower (pyStrip (pyStr v)))
      then "true" else "false"
  else pyStr v

/-! ## Concrete environments used by the claim theorems -/

def visibleBBox : BBox := { x := 0, y := 0, w := 100, h := 20 }

def textInputNode (id nm : String) : DomNode :=
  { tagName := "input", typeAttr := some "text", idAttr := id, nameAttr := some nm,
    bbox := visibleBBox }

def fileInputNode (id : String) : DomNode :=
  { tagName := "input", typeAttr := some "file", idAttr := id, bbox := visibleBBox }

/-- A text input hidden by `display: none` (visible = false, not a file
input, so the extraction loop skips it but still advances `idx`). -/
def hiddenTextNode (id : String) : DomNode :=
  { tagName := "input", typeAttr := some "text", idAttr := id,
    styleDisplay := "none", bbox := visibleBBox }

/-- A two-document snapshot: one visible text input in the main document
and one in a frame document. -/
def snapC1 : SnapshotEnv :=
  { url := some "https://example.com/apply"
    mainPage := { nodes := [textInputNode "email" "email"] }
    frames := [some { nodes := [textInputNode "phone" "phone"] }] }

/-- A live page whose second candidate element is an invisible non-file
input. -/
def pageGapC1 : PageEnv :=
  { nodes := [textInputNode "first_name" "first_name", hiddenTextNode "extra",
      textInputNode "last_name" "last_name"] }

/-- A snapshot with two *visible* file inputs, one email field and two
neutral visible text fields. -/
def snapC3 : SnapshotEnv :=
  { mainPage := { nodes := [fileInputNode "r1", fileInputNode "r2",
      textInputNode "email" "email", textInputNode "city" "city",
      textInputNode "state" "state"] } }

/-! ## Claim theorems -/

/-- C1: the claim says `field_id`s are unique within every extracted
schema and sequential (`field_0`, `field_1`, ...) in document order.
Both parts fail on the code: snapshot extraction re-runs
`_extract_fields_from_page` per frame document, restarting the
enumeration at `field_0`, so a two-document snapshot yields two fields
both named `field_0`; and the live enumeration index advances over
skipped invisible elements, producing the gapped sequence `field_0`,
`field_2`. -/
theorem C1_field_ids_duplicated_across_frames :
    ((extract_form_schema_from_snapshot_dir snapC1).sections.map fun s =>
      s.fields.map FormField.field_id) = [["field_0", "field_0"]] ∧
    ¬ ((schemaFields (extract_form_schema_from_snapshot_dir snapC1)).map
        FormField.field_id).Nodup ∧
    ((extract_form_schema_from_page pageGapC1 none).sections.map fun s =>
      s.fields.map FormField.field_id) = [["field_0", "field_2"]] := by
  refine ⟨rfl, ?_, rfl⟩
  rw [show ((schemaFields (extract_form_schema_from_snapshot_dir snapC1)).map
      FormField.field_id) = ["field_0", "field_0"] from rfl]
  decide

/-- C6: the validity verdict of both extraction variants equals the
spec's formula
`file_like_any AND (common_personal >= 1 OR submit_signal) AND
visible_count >= 3`, and removing every file-like signal
(`file_like_any = false`) forces the verdict to `false`. -/
theorem C6_validity_verdict_formula :
    (∀ env url,
      (extract_form_schema_from_page env url).validity.is_valid_job_application_form =
        specIsValid (liveFileLikeAny env) (commonPersonalCount (liveFields env))
          (detect_submit_application_signal env)
          (visibleFieldsOf (liveFields env)).length) ∧
    (∀ env,
      (extract_form_schema_from_snapshot_dir env).validity.is_valid_job_application_form =
        specIsValid (snapshotFileLikeAny env) (commonPersonalCount (snapshotAllFields env))
          (snapshotSubmitAny env) (visibleFieldsOf (snapshotAllFields env)).length) ∧
    (∀ env url, liveFileLikeAny env = false →
      (extract_form_schema_from_page env url).validity.is_valid_job_application_form
        = false) ∧
    (∀ env, snapshotFileLikeAny env = false →
      (extract_form_schema_from_snapshot_dir env).validity.is_valid_job_application_form
        = false) := by
  refine ⟨fun env url => rfl, fun env => rfl, ?_, ?_⟩
  · intro env url h
    simp [extract_form_schema_from_page, h]
  · intro env h
    simp [extract_form_schema_from_snapshot_dir, h]

/-- A live page and a snapshot with personal fields, three visible
fields, and no file-like signal at all. -/
def pageNoFileC6 : PageEnv :=
  { nodes := [textInputNode "email" "email", textInputNode "first_name" "first_name",
      textInputNode "last_name" "last_name"] }

def snapNoFileC6 : SnapshotEnv := { mainPage := pageNoFileC6 }

theorem C6_validity_verdict_formula_witness :
    (extract_form_schema_from_page pageNoFileC6 none).validity.is_valid_job_application_form
        = false ∧
    (extract_form_schema_from_snapshot_dir snapNoFileC6).validity.is_valid_job_application_form
        = false :=
  ⟨C6_validity_verdict_formula.2.2.1 pageNoFileC6 none rfl,
   C6_validity_verdict_formula.2.2.2 snapNoFileC6 rfl⟩

/-- C3 (amended): the live extraction's confidence follows the claimed
indicator formula, but the snapshot extraction multiplies 0.2 by the
*count* of visible file-like fields rather than by a 0/1 indicator. -/
theorem C3_confidence_live_indicator_snapshot_count :
    (∀ env url,
      (extract_form_schema_from_page env url).validity.confidence =
        pyRound2
          (if specIsValid (liveFileLikeAny env) (commonPersonalCount (liveFields env))
              (detect_submit_application_signal env)
              (visibleFieldsOf (liveFields env)).length then
            specClaimConfidence (liveFileLikeAny env)
              (commonPersonalCount (liveFields env))
              (visibleFieldsOf (liveFields env)).length
          else (1 : ℚ)/5)) ∧
    (∀ env,
      (extract_form_schema_from_snapshot_dir env).validity.confidence =
        pyRound2
          (if specIsValid (snapshotFileLikeAny env)
              (commonPersonalCount (snapshotAllFields env)) (snapshotSubmitAny env)
              (visibleFieldsOf (snapshotAllFields env)).length then
            specSnapshotConfidence (fileLikeVisibleCount (snapshotAllFields env))
              (commonPersonalCount (snapshotAllFields env))
              (visibleFieldsOf (snapshotAllFields env)).length
          else (1 : ℚ)/5)) :=
  ⟨fun env url => rfl, fun env => rfl⟩

/-- C3 (counterexample): on `snapC3` every file-like signal is present
(indicator 1), `common_personal = 1`, five visible fields — the claimed
formula gives `0.8`, but the snapshot extraction reports `1.0` because
it adds `0.2` per visible file-like field (two of them). -/
theorem C3_counterexample_snapshot_confidence :
    (extract_form_schema_from_snapshot_dir snapC3).validity.is_valid_job_application_form
        = true ∧
    snapshotFileLikeAny snapC3 = true ∧
    commonPersonalCount (snapshotAllFields snapC3) = 1 ∧
    (visibleFieldsOf (snapshotAllFields snapC3)).length = 5 ∧
    fileLikeVisibleCount (snapshotAllFields snapC3) = 2 ∧
    (extract_form_schema_from_snapshot_dir snapC3).validity.confidence = 1 ∧
    specClaimConfidence true 1 5 = 4/5 ∧
    (extract_form_schema_from_snapshot_dir snapC3).validity.confidence ≠
      specClaimConfidence (snapshotFileLikeAny snapC3)
        (commonPersonalCount (snapshotAllFields snapC3))
        (visibleFieldsOf (snapshotAllFields snapC3)).length := by
  refine ⟨rfl, rfl, rfl, rfl, rfl, ?_, ?_, ?_⟩
  · show pyRound2 (min 1 ((2 : ℚ)/5 + ((2 : ℕ) : ℚ)/5 + ((1 : ℕ) : ℚ)/10 +
      ((5 : ℕ) : ℚ)/50)) = 1
    norm_num [pyRound2, round_eq]
  · show min 1 ((2 : ℚ)/5 + (1 : ℚ)/5 + ((1 : ℕ) : ℚ)/10 + ((5 : ℕ) : ℚ)/50) = 4/5
    norm_num
  · show pyRound2 (min 1 ((2 : ℚ)/5 + ((2 : ℕ) : ℚ)/5 + ((1 : ℕ) : ℚ)/10 +
      ((5 : ℕ) : ℚ)/50)) ≠
      min 1 ((2 : ℚ)/5 + (1 : ℚ)/5 + ((1 : ℕ) : ℚ)/10 + ((5 : ℕ) : ℚ)/50)
    norm_num [pyRound2, round_eq]

/-! ### Answer Generator claims -/

/-- The per-field stamping of `generate_answers` coincides with the
spec's normalization rule. -/
lemma stampField_eq_spec (answers : List (String × Json)) (f : FormField) :
    stampField answers f =
      match objGet answers f.field_id with
      | none => f
      | some v =>
        { f with meta := { f.meta with answer := some (specNormalizeAnswer f.type v) } } := by
  unfold stampField specNormalizeAnswer
  cases objGet answers f.field_id with
  | none => rfl
  | some v =>
    by_cases h : f.type = "checkbox" ∨ f.type = "radio"
    · have hb : (f.type == "checkbox" || f.type == "radio") = true := by
        rcases h with h | h <;> simp [h]
      simp only [hb, if_pos h, if_true]
    · have hb : (f.type == "checkbox" || f.type == "radio") = false := by
        rcases not_or.mp h with ⟨h1, h2⟩
        simp [h1, h2]
      simp only [hb, if_neg h]
      rfl

/-- The single `select` field of the spec's literal scenario. -/
def selFieldC5 : FormField :=
  { field_id := "field_0", type := "select", options := ["yes", "no"] }

def schemaSelC5 : FormSchema :=
  { sections := [{ fields := [selFieldC5] }]
    validity := { is_valid_job_application_form := true, confidence := 1 } }

/-- C5: every field whose id occurs in the answers map gets
`meta["answer"]` stamped by the spec's normalization — checkbox/radio
values case-insensitively matched (after `str()`/`strip()`/`lower()`)
against `{"1","true","yes","on"}`, everything else stored as the
stringified value verbatim — and in the literal scenario a `select`
field with options `["yes","no"]` answered `"YES"` stores `"YES"`
unchanged. -/
theorem C5_answer_normalization :
    (∀ schema raw,
      (generate_answers schema raw).sections =
        schema.sections.map fun sec =>
          { sec with fields := sec.fields.map fun f =>
              match objGet (answersOf (rawOrEmptyObj raw)) f.field_id with
              | none => f
              | some v =>
                { f with meta :=
                    { f.meta with answer := some (specNormalizeAnswer f.type v) } } }) ∧
    ([(.str "1"), (.str "true"), (.str "yes"), (.str "on"), (.str "TRUE"),
        (.str "Yes")].all fun v =>
      specNormalizeAnswer "checkbox" v == "true" &&
        specNormalizeAnswer "radio" v == "true") = true ∧
    ([(.str ""), (.str "no"), (.str "false")].all fun v =>
      specNormalizeAnswer "checkbox" v == "false" &&
        specNormalizeAnswer "radio" v == "false") = true ∧
    ((generate_answers schemaSelC5
        (some "\x7b\"answers\": \x7b\"field_0\": \"YES\"\x7d\x7d")).sections.map fun s =>
      s.fields.map fun f => f.meta.answer) = [[some "YES"]] := by
  refine ⟨?_, rfl, rfl, rfl⟩
  intro schema raw
  have hf : stampField (answersOf (rawOrEmptyObj raw)) = fun f =>
      match objGet (answersOf (rawOrEmptyObj raw)) f.field_id with
      | none => f
      | some v =>
        { f with meta := { f.meta with answer := some (specNormalizeAnswer f.type v) } } :=
    funext fun f => stampField_eq_spec _ f
  show schema.sections.map _ = _
  rw [hf]

/-- C8: the Answer Generator parses defensively and is atomic on
failure — an unparsable response yields an empty answer map; an empty
answer map leaves every section (hence every field) exactly as it was;
and any field whose id is absent from the answers map is returned
untouched. -/
theorem C8_defensive_parse_atomicity :
    (∀ raw, jsonLoads raw = none → answersOf raw = []) ∧
    (∀ schema raw, answersOf (rawOrEmptyObj raw) = [] →
      (generate_answers schema raw).sections = schema.sections) ∧
    (∀ answers f, objHasKey answers f.field_id = false → stampField answers f = f) := by
  refine ⟨?_, ?_, ?_⟩
  · intro raw h
    simp [answersOf, h]
  · intro schema raw h
    show schema.sections.map _ = _
    rw [h]
    have hid : stampField ([] : List (String × Json)) = fun f => f := funext fun f => rfl
    simp [hid]
  · intro answers f h
    unfold stampField
    cases hg : objGet answers f.field_id with
    | none => rfl
    | some v => simp [objHasKey, hg] at h

def fieldC8 : FormField := { field_id := "field_7", type := "text" }

def schemaC8 : FormSchema :=
  { sections := [{ fields := [fieldC8] }]
    validity := { is_valid_job_application_form := false, confidence := 1/5 } }

theorem C8_defensive_parse_atomicity_witness :
    answersOf "not valid json" = [] ∧
    (generate_answers schemaC8 (some "not valid json")).sections = schemaC8.sections ∧
    stampField [("field_0", Json.str "x")] fieldC8 = fieldC8 :=
  ⟨C8_defensive_parse_atomicity.1 "not valid json" rfl,
   C8_defensive_parse_atomicity.2.1 schemaC8 (some "not valid json") rfl,
   C8_defensive_parse_atomicity.2.2 [("field_0", Json.str "x")] fieldC8 rfl⟩

/-! ### Fill-Plan Executor claims -/

/-- A page with a single visible empty text input reachable by
`#first_name`. -/
def pgC4 : ExecPage :=
  { elems := [{ kind := .textInput }]
    queryCss := fun s => if s = "#first_name" then [0] else [] }

def stC4 : ExecState := { values := fun _ => "", checked := fun _ => false }

def fC4 : FormField :=
  { field_id := "field_0", type := "text", label := some "First Name"
    locators := { css := some "#first_name" }
    meta := { visible := true, answer := some "Jane" } }

/-- C4: the claim says a text-like field with a non-empty answer and an
empty live element gets filled with the answer.  The code never does:
the progress print at executor.py:268 references the undefined name
`field` (the loop variable is `f`), raising a `NameError` that the
per-field handler catches, so the per-field pass performs no action —
even though `_fill_field` itself, called directly as the claim intends,
would fill the element. -/
theorem C4_textlike_fill_suppressed_by_name_error :
    (processField pgC4 stC4 fC4).2 = [] ∧
    (processField pgC4 stC4 fC4).1.values 0 = "" ∧
    inputValueRead pgC4 stC4 0 = some "" ∧
    (fill_field pgC4 stC4 fC4 "Jane").2 = [BrowserAction.fill 0 "Jane"] ∧
    (fill_field pgC4 stC4 fC4 "Jane").1.values 0 = "Jane" :=
  ⟨rfl, rfl, rfl, rfl, rfl⟩

/-- C9: a text-like field whose live element already holds a non-empty
(non-whitespace) `input_value()` is skipped — no browser action, state
unchanged; likewise a checkbox/radio whose element is already checked. -/
theorem C9_prepopulated_fields_skipped :
    (∀ pg st f a sel e es v,
      (f.type = "text" ∨ f.type = "email" ∨ f.type = "tel" ∨ f.type = "number" ∨
        f.type = "date" ∨ f.type = "textarea") →
      f.meta.answer = some a →
      cssOrNone f.locators = some sel →
      pg.queryCss sel = e :: es →
      inputValueRead pg st e = some v →
      v ≠ "" → pyStrip v ≠ "" →
      processField pg st f = (st, [])) ∧
    (∀ pg st f a sel e es,
      (f.type = "checkbox" ∨ f.type = "radio") →
      f.meta.answer = some a →
      cssOrNone f.locators = some sel →
      pg.queryCss sel = e :: es →
      isCheckedRead pg st e = some true →
      processField pg st f = (st, [])) := by
  constructor
  · intro pg st f a sel e es v htype hans hsel hq hval hv1 hv2
    by_cases ha : a = ""
    · rcases htype with h | h | h | h | h | h <;>
        simp [processField, hans, ha, h]
    · rcases htype with h | h | h | h | h | h <;>
        simp [processField, textLikeTypes, hans, ha, h, hsel, hq, hval, hv1, hv2]
  · intro pg st f a sel e es htype hans hsel hq hchk
    by_cases ha : a = ""
    · rcases htype with h | h <;> simp [processField, hans, ha, h]
    · rcases htype with h | h <;>
        simp [processField, textLikeTypes, hans, ha, h, hsel, hq, hchk]

def pgC9 : ExecPage :=
  { elems := [{ kind := .textInput }]
    queryCss := fun s => if s = "#email" then [0] else [] }

def stC9 : ExecState :=
  { values := fun i => if i = 0 then "john@example.com" else "", checked := fun _ => false }

def fC9 : FormField :=
  { field_id := "field_0", type := "email", locators := { css := some "#email" }
    meta := { visible := true, answer := some "other@example.com" } }

def pgC9b : ExecPage :=
  { elems := [{ kind := .checkboxInput }]
    queryCss := fun s => if s = "#agree" then [0] else [] }

def stC9b : ExecState := { values := fun _ => "", checked := fun i => i == 0 }

def fC9b : FormField :=
  { field_id := "field_1", type := "checkbox", locators := { css := some "#agree" }
    meta := { visible := true, answer := some "true" } }

theorem C9_prepopulated_fields_skipped_witness :
    processField pgC9 stC9 fC9 = (stC9, []) ∧
    processField pgC9b stC9b fC9b = (stC9b, []) :=
  ⟨C9_prepopulated_fields_skipped.1 pgC9 stC9 fC9 "other@example.com" "#email" 0 []
      "john@example.com" (Or.inr (Or.inl rfl)) rfl rfl rfl rfl (by decide) (by decide),
   C9_prepopulated_fields_skipped.2 pgC9b stC9b fC9b "true" "#agree" 0 []
      (Or.inl rfl) rfl rfl rfl rfl⟩

/-- C10: a radio field with any non-empty answer whose element is not
yet checked is clicked without consulting the answer's value (so
`"false"` still clicks and selects it), while a checkbox with a value
outside `{"1","true","yes","on"}` performs no action at all. -/
theorem C10_radio_click_ignores_answer_value :
    (∀ pg st f v sel e es,
      f.type = "radio" →
      f.meta.answer = some v → v ≠ "" →
      cssOrNone f.locators = some sel →
      pg.queryCss sel = e :: es →
      elemKind pg e = .radioInput →
      elemVisible pg e = true →
      st.checked e = false →
      processField pg st f = (doClickState pg st e, [.click e]) ∧
        (processField pg st f).1.checked e = true) ∧
    (∀ pg st f v sel e es,
      f.type = "checkbox" →
      f.meta.answer = some v → v ≠ "" →
      (["1", "true", "yes", "on"] : List String).contains (pyLower v) = false →
      cssOrNone f.locators = some sel →
      pg.queryCss sel = e :: es →
      elemKind pg e = .checkboxInput →
      st.checked e = false →
      processField pg st f = (st, [])) := by
  constructor
  · intro pg st f v sel e es htype hans hv hsel hq hkind hvis hchk
    have hmain : processField pg st f = (doClickState pg st e, [.click e]) := by
      simp [processField, textLikeTypes, hans, hv, htype, hsel, hq, isCheckedRead, hkind,
        hchk, fill_field, textLikeFillTypes, tryClick, hvis]
    refine ⟨hmain, ?_⟩
    rw [hmain]
    simp [doClickState, hkind]
  · intro pg st f v sel e es htype hans hv hcont hsel hq hkind hchk
    have h1 : processField pg st f = fill_field pg st f v := by
      simp [processField, textLikeTypes, hans, hv, htype, hsel, hq, isCheckedRead, hkind, hchk]
    have h2 : fill_field pg st f v = checkboxFill pg st f (e :: es) v := by
      simp [fill_field, textLikeFillTypes, htype, hsel, hq]
    rw [h1, h2]
    simp only [checkboxFill, hcont]
    simp

def pgC10 : ExecPage :=
  { elems := [{ kind := .radioInput }]
    queryCss := fun s => if s = "#opt" then [0] else [] }

def stC10 : ExecState := { values := fun _ => "", checked := fun _ => false }

def fC10 : FormField :=
  { field_id := "field_2", type := "radio", locators := { css := some "#opt" }
    meta := { visible := true, answer := some "false" } }

def pgC10b : ExecPage :=
  { elems := [{ kind := .checkboxInput }]
    queryCss := fun s => if s = "#cb" then [0] else [] }

def fC10b : FormField :=
  { field_id := "field_3", type := "checkbox", locators := { css := some "#cb" }
    meta := { visible := true, answer := some "false" } }

theorem C10_radio_click_ignores_answer_value_witness :
    (processField pgC10 stC10 fC10 = (doClickState pgC10 stC10 0, [.click 0]) ∧
      (processField pgC10 stC10 fC10).1.checked 0 = true) ∧
    processField pgC10b stC10 fC10b = (stC10, []) :=
  ⟨C10_radio_click_ignores_answer_value.1 pgC10 stC10 fC10 "false" "#opt" 0 []
      rfl rfl (by decide) rfl rfl rfl rfl rfl,
   C10_radio_click_ignores_answer_value.2 pgC10b stC10 fC10b "false" "#cb" 0 []
      rfl rfl (by decide) (by decide) rfl rfl rfl rfl⟩

/-! ### Apply-URL Resolver claims -/

/-- An environment in which the three-stage resolver ends up choosing an
apply URL hosted on `linkedin.com`. -/
def envC2 : ResolverEnv :=
  { stage1Response := "\x7b\"official_domain\": \"acme.com\", \"confidence\": \"High\", \"rationale\": \"...\"\x7d"
    linkAnalysisResponse := "\x7b\"careers_links\": [\"https://www.linkedin.com/jobs/123\"]\x7d"
    careersAnalysisResponse := fun u =>
      if u = "https://www.linkedin.com/jobs/123" then
        "\x7b\"apply_url\": \"https://www.linkedin.com/jobs/view/999\"\x7d"
      else ""
    visit := fun u =>
      if u = "https://acme.com" || u = "https://www.linkedin.com/jobs/123" then some {}
      else none }

/-- An assistant run of the beta variant proposing the same
`linkedin.com` apply URL. -/
def betaItemsC2 : List BetaMsg :=
  [{ role := "assistant"
     content := [{ text := some (.obj [("value",
       .str "\x7b\"apply_url\": \"https://www.linkedin.com/jobs/view/999\"\x7d")]) }] }]

/-- C2: the claim says both resolver variants discard a finally chosen
URL whose registrable domain matches a disallowed-domains entry.  The
three-stage variant does not: it accepts `do_not_apply_domains` but
never reads it, and here returns the `linkedin.com` URL despite
`["linkedin.com"]` being disallowed — the very URL its own
`_violates_dna` predicate (used only by the beta variant, which does
blank it to `None`) flags as a violation. -/
theorem C2_three_stage_resolver_skips_disallowed_filter :
    Option.map Prod.fst
        (agentic5_find_apply_url envC2 "https://www.linkedin.com/jobs/orig"
          "Acme Corp engineer" ["linkedin.com"] 8).result =
      some (some (Json.str "https://www.linkedin.com/jobs/view/999")) ∧
    domain "https://www.linkedin.com/jobs/view/999" = "linkedin.com" ∧
    "linkedin.com" ∈ (["linkedin.com"] : List String) ∧
    violates_dna (Json.str "https://www.linkedin.com/jobs/view/999") ["linkedin.com"]
      = true ∧
    Option.map Prod.fst (agentic5beta_find_apply_url betaItemsC2 (some ["linkedin.com"]))
      = some Json.null := by
  refine ⟨rfl, rfl, ?_, rfl, rfl⟩
  exact List.mem_singleton.mpr rfl

/-- Stage 1 succeeds, and Stage 2's homepage navigation fails. -/
def envC7 : ResolverEnv :=
  { stage1Response := "\x7b\"official_domain\": \"acme.com\", \"confidence\": \"High\", \"rationale\": \"...\"\x7d" }

/-- C7: a Stage 1 response that parses as JSON, such as the literal
`{"official_domain": "acme.com", ...}`, sends resolution into Stage 2
with that `official_domain`; a response that is not valid JSON makes
Stage 1 return `None`, and the whole resolution halts with
`(None, trace)`, never emitting the Stage 2 start event. -/
theorem C7_stage1_parse_gates_stage2 :
    ((agentic5_find_apply_url envC7 "https://jobs.example.com/p/1" "Acme Corp" [] 8).events
        = [REvent.stage1Start "https://jobs.example.com/p/1",
           REvent.stage2Start (Json.str "acme.com")] ∧
      stage1_find_official_website envC7 =
        some (Json.obj [("official_domain", Json.str "acme.com"),
          ("confidence", Json.str "High"), ("rationale", Json.str "...")]) ∧
      Option.map Prod.fst
          (agentic5_find_apply_url envC7 "https://jobs.example.com/p/1" "Acme Corp" [] 8).result
        = some none) ∧
    (∀ env job_url jds dna fuel, jsonLoads env.stage1Response = none →
      agentic5_find_apply_url env job_url jds dna fuel =
        { result := some (none, { stage1 := none })
          events := [REvent.stage1Start job_url] }) := by
  refine ⟨⟨rfl, rfl, rfl⟩, ?_⟩
  intro env job_url jds dna fuel h
  simp [agentic5_find_apply_url, stage1_find_official_website, h]

def envC7bad : ResolverEnv := { stage1Response := "not valid json" }

theorem C7_stage1_parse_gates_stage2_witness :
    agentic5_find_apply_url envC7bad "u" "s" [] 3 =
      { result := some (none, { stage1 := none })
        events := [REvent.stage1Start "u"] } :=
  C7_stage1_parse_gates_stage2.2 envC7bad "u" "s" [] 3 rfl

end Applicant
